import Mathlib

/-
Verification of the function-decoration utility library (src/utils.py).

The embedding models Python 2 semantics shallowly:
  * `Value` is the space of (non-callable) Python values the claims need;
  * `Exc` is an exception object: either a primitive one (kind, message) or
    one constructed from another exception (`new_exception_type(ex)`);
  * a raised result carries the exception object together with an abstract
    traceback token (`Nat`), so traceback preservation is observable;
  * a Python function is `Args -> PyResult Value`; callables carry their
    `__name__` and `__doc__` so that `functools.wraps` is observable;
  * `safe_try`, `_copy_or_call`, `wrap_exception`, `decorator` and
    `create_enum` are translated line by line from src/utils.py;
  * the stdlib pieces the code calls are modelled faithfully to CPython 2.7:
    `type(x)(x)` reconstruction (`reconstruct`), and the validation loops of
    `collections.namedtuple` (`checkName`, `checkFields`), including the
    `IndexError` that `name[0]` raises on an empty field name.
-/

set_option autoImplicit false

/-- Non-callable Python values relevant to the claims. -/
inductive Value where
  | none
  | bool (b : Bool)
  | int (n : Int)
  | str (s : String)
  | list (xs : List Value)

/-- A Python exception object.  `prim kind msg` is an exception created with a
message argument; `ofExc kind cause` is an exception created from another
exception object, as in `new_exception_type(ex)`. -/
inductive Exc where
  | prim (kind : String) (msg : String)
  | ofExc (kind : String) (cause : Exc)

/-- The class (kind) of an exception object. -/
def Exc.kind : Exc → String
  | .prim k _ => k
  | .ofExc k _ => k

/-- The exception object this exception was constructed from, if any. -/
def Exc.cause : Exc → Option Exc
  | .prim _ _ => Option.none
  | .ofExc _ c => some c

/-- Outcome of a Python call: a returned value, or a raised exception together
with an abstract traceback token. -/
inductive PyResult (α : Type) where
  | ok (v : α)
  | raised (e : Exc) (tb : Nat)

/-- Whether the outcome is a raised exception of the given kind. -/
def raisesKind {α : Type} (r : PyResult α) (k : String) : Bool :=
  match r with
  | .ok _ => false
  | .raised e _ => e.kind == k

/-- Whether the outcome is a normal return. -/
def PyResult.isOk {α : Type} : PyResult α → Bool
  | .ok _ => true
  | .raised _ _ => false

/-- Positional and keyword arguments of a Python call. -/
structure Args where
  pos : List Value
  kw : List (String × Value)

/-- A Python function object: introspectable metadata plus call behavior. -/
structure Func where
  name : String
  doc : String
  call : Args → PyResult Value

/-- A behavior function as accepted by `decorator`: its first parameter is the
wrapped callable, the remaining parameters are the forwarded call arguments. -/
structure BehaviorFunc where
  name : String
  doc : String
  call : Func → Args → PyResult Value

/-- A decorator: what `decorator` returns.  `functools.wraps(decorator_func)`
copies the behavior function's metadata onto it. -/
structure Decorator where
  name : String
  doc : String
  apply : Func → Func

/-- src/utils.py, `decorator` (lines 7-29): turn `decorator_func` into a
decorator.  The returned `new_decorator` carries `decorator_func`'s metadata
(`@wraps(decorator_func)`); applying it to `fn` yields a wrapper carrying
`fn`'s metadata (`@wraps(fn)`) whose body is
`decorator_func(fn, *args, **kwargs)`. -/
def decorator (decorator_func : BehaviorFunc) : Decorator where
  name := decorator_func.name
  doc := decorator_func.doc
  apply := fun fn =>
    { name := fn.name
      doc := fn.doc
      call := fun args => decorator_func.call fn args }

/-- Models `type(x)(x)` in CPython 2: rebuilding a value from itself via its
own type.  `bool`, `int`, `str` and `list` all accept one argument equal to an
instance and produce an equal instance (for `list`, a fresh list with the same
elements); `type(None)` is `NoneType`, which cannot be instantiated and raises
`TypeError`. -/
def reconstruct : Value → PyResult Value
  | .none => .raised (Exc.prim "TypeError" "cannot create 'NoneType' instances") 0
  | .bool b => .ok (.bool b)
  | .int n => .ok (.int n)
  | .str s => .ok (.str s)
  | .list xs => .ok (.list xs)

/-- A default value as passed to `safe_try`: either a callable or a plain
value (`callable(d)` distinguishes the two). -/
inductive Default where
  | value (v : Value)
  | callable (f : Args → PyResult Value)

/-- src/utils.py, `_copy_or_call` (lines 71-75): call the default with the
forwarded arguments when it is callable, otherwise copy it by reconstructing
an instance of its own type from itself. -/
def _copy_or_call (func_or_value : Default) (args : Args) : PyResult Value :=
  match func_or_value with
  | .callable f => f args
  | .value v => reconstruct v

/-- src/utils.py, `safe_try` (lines 40-68): wrap try/except around a function
and substitute the default when an exception of one of `exception_types` is
raised.  In Python the `default_value` parameter is optional and defaults to
`None`; the omitted default is modelled by passing `Default.value Value.none`. -/
def safe_try (exception_types : List String) (default_value : Default) : Decorator :=
  decorator
    { name := "try_decorator"
      doc := ""
      call := fun fn args =>
        match fn.call args with
        | .ok v => .ok v
        | .raised e tb =>
          if e.kind ∈ exception_types then _copy_or_call default_value args
          else .raised e tb }

/-- src/utils.py, `wrap_exception` (lines 78-100): wrap exceptions of
`exception_types` into `new_exception_type`.  The matched branch builds
`new_exception = new_exception_type(ex)` and re-raises it with the original
traceback (`raise new_exception.__class__, new_exception, exception_info[2]`),
so the raised object is constructed from `ex` and keeps `ex`'s traceback. -/
def wrap_exception (exception_types : List String) (new_exception_type : String) : Decorator :=
  decorator
    { name := "try_decorator"
      doc := ""
      call := fun fn args =>
        match fn.call args with
        | .ok v => .ok v
        | .raised e tb =>
          if e.kind ∈ exception_types then .raised (Exc.ofExc new_exception_type e) tb
          else .raised e tb }

/-- The Python 2 keywords, as tested by `keyword.iskeyword`. -/
def pykeywords : List String :=
  ["and", "as", "assert", "break", "class", "continue", "def", "del",
   "elif", "else", "except", "exec", "finally", "for", "from", "global",
   "if", "import", "in", "is", "lambda", "not", "or", "pass", "print",
   "raise", "return", "try", "while", "with", "yield"]

/-- Models `keyword.iskeyword` for Python 2: membership in the keyword list. -/
def _iskeyword (s : String) : Bool := decide (s ∈ pykeywords)

/-- A character allowed in a type or field name: `c.isalnum() or c == '_'`
(byte strings, so ASCII alphanumerics). -/
def validChar (c : Char) : Bool := c.isAlphanum || c == '_'

/-- One pass of the first validation loop of CPython 2.7
`collections.namedtuple` over a single name: reject names with characters
other than alphanumerics and underscores, keywords, and names starting with a
digit.  The digit test subscripts `name[0]`, which raises `IndexError` when
the name is empty. -/
def checkName (name : String) : Option Exc :=
  if name.data.all validChar then
    if _iskeyword name then
      some (Exc.prim "ValueError" "Type names and field names cannot be a keyword")
    else
      match name.data with
      | [] => some (Exc.prim "IndexError" "string index out of range")
      | c :: _ =>
        if c.isDigit then
          some (Exc.prim "ValueError" "Type names and field names cannot start with a number")
        else Option.none
  else
    some (Exc.prim "ValueError" "Type names and field names can only contain alphanumeric characters and underscores")

/-- The first validation loop of `namedtuple`, over `[typename] + field_names`:
the first failing check wins. -/
def checkNames : List String → Option Exc
  | [] => Option.none
  | n :: rest =>
    match checkName n with
    | some e => some e
    | Option.none => checkNames rest

/-- Models `name.startswith('_')`. -/
def py_startswith_underscore (s : String) : Bool :=
  match s.data with
  | [] => false
  | c :: _ => c == '_'

/-- The second validation loop of `namedtuple` (with `rename=False`): reject
field names starting with an underscore and duplicate field names, carrying
the set of names already seen. -/
def checkFields (seen : List String) : List String → Option Exc
  | [] => Option.none
  | n :: rest =>
    if py_startswith_underscore n then
      some (Exc.prim "ValueError" "Field names cannot start with an underscore")
    else if seen.contains n then
      some (Exc.prim "ValueError" "Encountered duplicate field name")
    else checkFields (n :: seen) rest

/-- The named-record class `namedtuple` builds: its name and field names. -/
structure RecordType where
  typename : String
  fields : List String

/-- An instance of a named-record class: an immutable record pairing the field
names with the stored values. -/
structure Record where
  typename : String
  fields : List String
  values : List Value

/-- Models `collections.namedtuple(typename, field_names)` of CPython 2.7,
specialized to a list of `str` field names and default `rename=False`:
validate `[typename] + field_names` with the first loop, then the field names
with the second loop, and return the record class. -/
def namedtuple (typename : String) (field_names : List String) : PyResult RecordType :=
  match checkNames (typename :: field_names) with
  | some e => .raised e 0
  | Option.none =>
    match checkFields [] field_names with
    | some e => .raised e 0
    | Option.none => .ok { typename := typename, fields := field_names }

/-- Instantiating a named-record class with positional values: `_enum_type(*options)`.
The constructor demands exactly one value per field. -/
def RecordType.make (t : RecordType) (vals : List Value) : PyResult Record :=
  if vals.length = t.fields.length then
    .ok { typename := t.typename, fields := t.fields, values := vals }
  else .raised (Exc.prim "TypeError" "wrong number of arguments") 0

/-- Attribute access on a record: the value stored under the first field with
the given name. -/
def Record.getattr (r : Record) (a : String) : Option Value :=
  List.lookup a (r.fields.zip r.values)

/-- Models `'_'.join(options)` (Python `str.join`). -/
def pyJoin (sep : String) : List String → String
  | [] => ""
  | [x] => x
  | x :: y :: rest => x ++ sep ++ pyJoin sep (y :: rest)

/-- src/utils.py, `create_enum` (lines 103-112): build a named-record type
called `'_'.join(options) + '_type'` with `options` as its field names, and
return an instance holding each option name as the value of its own field. -/
def create_enum (options : List String) : PyResult Record :=
  match namedtuple (pyJoin "_" options ++ "_type") options with
  | .raised e tb => .raised e tb
  | .ok t => t.make (options.map Value.str)

/-- A concrete function that raises `KeyError`, as `bad_function` in the
`safe_try` docstring. -/
def bad_function : Func where
  name := "bad_function"
  doc := "Look up an invalid key."
  call := fun _ => .raised (Exc.prim "KeyError" "invalid_key") 7

/-- A concrete function that returns normally. -/
def good_function : Func where
  name := "good_function"
  doc := "Return the number 42."
  call := fun _ => .ok (.int 42)

/-- A concrete callable default. -/
def default_callable : Args → PyResult Value := fun _ => .ok (.str "called")

/-- Concrete call arguments. -/
def sample_args : Args := { pos := [Value.int 3], kw := [] }

/-- Unfolding `safe_try` when the wrapped call raises: the wrapper substitutes
the default on a matching kind and re-raises otherwise. -/
theorem safe_try_call_raised (E : List String) (d : Default) (fn : Func)
    (args : Args) (e : Exc) (tb : Nat) (hf : fn.call args = PyResult.raised e tb) :
    ((safe_try E d).apply fn).call args =
      if e.kind ∈ E then _copy_or_call d args else PyResult.raised e tb := by
  unfold safe_try decorator
  dsimp only
  rw [hf]

/-- Unfolding `safe_try` when the wrapped call returns. -/
theorem safe_try_call_ok (E : List String) (d : Default) (fn : Func)
    (args : Args) (v : Value) (hf : fn.call args = PyResult.ok v) :
    ((safe_try E d).apply fn).call args = PyResult.ok v := by
  unfold safe_try decorator
  dsimp only
  rw [hf]

/-- Unfolding `wrap_exception` when the wrapped call raises. -/
theorem wrap_exception_call_raised (E : List String) (T : String) (fn : Func)
    (args : Args) (e : Exc) (tb : Nat) (hf : fn.call args = PyResult.raised e tb) :
    ((wrap_exception E T).apply fn).call args =
      if e.kind ∈ E then PyResult.raised (Exc.ofExc T e) tb else PyResult.raised e tb := by
  unfold wrap_exception decorator
  dsimp only
  rw [hf]

/-- Unfolding `wrap_exception` when the wrapped call returns. -/
theorem wrap_exception_call_ok (E : List String) (T : String) (fn : Func)
    (args : Args) (v : Value) (hf : fn.call args = PyResult.ok v) :
    ((wrap_exception E T).apply fn).call args = PyResult.ok v := by
  unfold wrap_exception decorator
  dsimp only
  rw [hf]

/-- Claim C1, amended: if `f` raises an error whose kind is in `E`, then the
call of `safe_try(E, d)(f)` with the same arguments returns the default:
`d` invoked with those arguments when `d` is callable, and a fresh
reconstructed value equal to `d` when `d` is a non-callable value other than
`None` (for the default `None` the reconstruction itself raises `TypeError`,
see `safe_try_omitted_default_raises_typeerror`). -/
theorem safe_try_returns_default_on_matched_error
    (E : List String) (d : Default) (fn : Func) (args : Args) (e : Exc) (tb : Nat)
    (hf : fn.call args = PyResult.raised e tb) (hE : e.kind ∈ E) :
    (∀ g, d = Default.callable g → ((safe_try E d).apply fn).call args = g args) ∧
    (∀ v, d = Default.value v → v ≠ Value.none →
      ((safe_try E d).apply fn).call args = PyResult.ok v) := by
  have hres : ((safe_try E d).apply fn).call args = _copy_or_call d args := by
    rw [safe_try_call_raised E d fn args e tb hf, if_pos hE]
  constructor
  · intro g hg
    rw [hres, hg]
    rfl
  · intro v hv hne
    rw [hres, hv]
    cases v with
    | none => exact absurd rfl hne
    | bool b => rfl
    | int n => rfl
    | str s => rfl
    | list xs => rfl

/-- Witness for Claim C1: suppressing the `KeyError` of `bad_function` with the
string default yields that string. -/
theorem safe_try_returns_default_on_matched_error_witness :
    bad_function.call sample_args = PyResult.raised (Exc.prim "KeyError" "invalid_key") 7 ∧
    (Exc.prim "KeyError" "invalid_key").kind ∈ ["KeyError"] ∧
    ((safe_try ["KeyError"] (Default.value (Value.str "mistake"))).apply bad_function).call
      sample_args = PyResult.ok (Value.str "mistake") :=
  ⟨rfl, by decide,
   (safe_try_returns_default_on_matched_error ["KeyError"]
      (Default.value (Value.str "mistake")) bad_function sample_args
      (Exc.prim "KeyError" "invalid_key") 7 rfl (by decide)).2
      (Value.str "mistake") rfl (fun h => Value.noConfusion h)⟩

/-- Counterexample to Claim C1 as stated: with the default `None` (the omitted
default), the suppressed-error branch raises `TypeError` instead of returning
the default. -/
theorem safe_try_none_default_counterexample :
    ((safe_try ["KeyError"] (Default.value Value.none)).apply bad_function).call sample_args
      = PyResult.raised (Exc.prim "TypeError" "cannot create 'NoneType' instances") 0 ∧
    ((safe_try ["KeyError"] (Default.value Value.none)).apply bad_function).call sample_args
      ≠ PyResult.ok Value.none :=
  ⟨rfl, fun h => PyResult.noConfusion h⟩

/-- Claim C2: when `f` raises an error whose kind is in `E`, the call of
`wrap_exception(E, T)(f)` raises an instance of `T` constructed from the
original error, with the original traceback, whose cause is the original
error. -/
theorem wrap_exception_translates_matched_error
    (E : List String) (T : String) (fn : Func) (args : Args) (e : Exc) (tb : Nat)
    (hf : fn.call args = PyResult.raised e tb) (hE : e.kind ∈ E) :
    ((wrap_exception E T).apply fn).call args = PyResult.raised (Exc.ofExc T e) tb ∧
    (Exc.ofExc T e).kind = T ∧ (Exc.ofExc T e).cause = some e := by
  refine ⟨?_, rfl, rfl⟩
  rw [wrap_exception_call_raised E T fn args e tb hf, if_pos hE]

/-- Witness for Claim C2: wrapping the `KeyError` of `bad_function` into
`MyException` raises the translated exception with the original traceback. -/
theorem wrap_exception_translates_matched_error_witness :
    bad_function.call sample_args = PyResult.raised (Exc.prim "KeyError" "invalid_key") 7 ∧
    (Exc.prim "KeyError" "invalid_key").kind ∈ ["KeyError", "ValueError"] ∧
    ((wrap_exception ["KeyError", "ValueError"] "MyException").apply bad_function).call
      sample_args
      = PyResult.raised (Exc.ofExc "MyException" (Exc.prim "KeyError" "invalid_key")) 7 :=
  ⟨rfl, by decide,
   (wrap_exception_translates_matched_error ["KeyError", "ValueError"] "MyException"
      bad_function sample_args (Exc.prim "KeyError" "invalid_key") 7 rfl (by decide)).1⟩

/-- Claim C3: an error whose kind is not in `E` propagates unchanged (same
exception object, same traceback) through both `safe_try` and
`wrap_exception`. -/
theorem unmatched_error_propagates_unchanged
    (E : List String) (T : String) (d : Default) (fn : Func) (args : Args)
    (e : Exc) (tb : Nat)
    (hf : fn.call args = PyResult.raised e tb) (hE : e.kind ∉ E) :
    ((safe_try E d).apply fn).call args = PyResult.raised e tb ∧
    ((wrap_exception E T).apply fn).call args = PyResult.raised e tb := by
  constructor
  · rw [safe_try_call_raised E d fn args e tb hf, if_neg hE]
  · rw [wrap_exception_call_raised E T fn args e tb hf, if_neg hE]

/-- Witness for Claim C3: a `KeyError` passes unchanged through wrappers that
only handle `ValueError`. -/
theorem unmatched_error_propagates_unchanged_witness :
    bad_function.call sample_args = PyResult.raised (Exc.prim "KeyError" "invalid_key") 7 ∧
    (Exc.prim "KeyError" "invalid_key").kind ∉ ["ValueError"] ∧
    ((safe_try ["ValueError"] (Default.value (Value.str "mistake"))).apply bad_function).call
      sample_args = PyResult.raised (Exc.prim "KeyError" "invalid_key") 7 ∧
    ((wrap_exception ["ValueError"] "MyException").apply bad_function).call sample_args
      = PyResult.raised (Exc.prim "KeyError" "invalid_key") 7 :=
  ⟨rfl, by decide,
   (unmatched_error_propagates_unchanged ["ValueError"] "MyException"
      (Default.value (Value.str "mistake")) bad_function sample_args
      (Exc.prim "KeyError" "invalid_key") 7 rfl (by decide)).1,
   (unmatched_error_propagates_unchanged ["ValueError"] "MyException"
      (Default.value (Value.str "mistake")) bad_function sample_args
      (Exc.prim "KeyError" "invalid_key") 7 rfl (by decide)).2⟩

/-- Claim C4: when `f` returns normally, both decorated calls return exactly
`f`'s value. -/
theorem success_returns_original_result
    (E : List String) (T : String) (d : Default) (fn : Func) (args : Args) (v : Value)
    (hf : fn.call args = PyResult.ok v) :
    ((safe_try E d).apply fn).call args = PyResult.ok v ∧
    ((wrap_exception E T).apply fn).call args = PyResult.ok v :=
  ⟨safe_try_call_ok E d fn args v hf, wrap_exception_call_ok E T fn args v hf⟩

/-- Witness for Claim C4: `good_function`'s value `42` passes through both
wrappers unchanged. -/
theorem success_returns_original_result_witness :
    good_function.call sample_args = PyResult.ok (Value.int 42) ∧
    ((safe_try ["KeyError"] (Default.value (Value.str "mistake"))).apply good_function).call
      sample_args = PyResult.ok (Value.int 42) ∧
    ((wrap_exception ["KeyError"] "MyException").apply good_function).call sample_args
      = PyResult.ok (Value.int 42) :=
  ⟨rfl,
   (success_returns_original_result ["KeyError"] "MyException"
      (Default.value (Value.str "mistake")) good_function sample_args (Value.int 42) rfl).1,
   (success_returns_original_result ["KeyError"] "MyException"
      (Default.value (Value.str "mistake")) good_function sample_args (Value.int 42) rfl).2⟩

/-- Claim C6: the wrapper built by `decorator(g)(f)` forwards every call to
`g` with `f` followed by exactly the supplied arguments, and returns `g`'s
result. -/
theorem decorator_forwards_call (g : BehaviorFunc) (f : Func) (args : Args) :
    ((decorator g).apply f).call args = g.call f args := rfl

/-- Claim C7: the wrapper built by `decorator(g)(f)` keeps `f`'s introspectable
name and documentation (`functools.wraps`). -/
theorem decorator_preserves_metadata (g : BehaviorFunc) (f : Func) :
    ((decorator g).apply f).name = f.name ∧ ((decorator g).apply f).doc = f.doc :=
  ⟨rfl, rfl⟩

/-- Claim C8: with the omitted default (`None`), suppressing a matched error
makes `_copy_or_call` evaluate `type(None)(None)`, which raises `TypeError`;
the call therefore does not return `None`. -/
theorem safe_try_omitted_default_raises_typeerror
    (E : List String) (fn : Func) (args : Args) (e : Exc) (tb : Nat)
    (hf : fn.call args = PyResult.raised e tb) (hE : e.kind ∈ E) :
    ((safe_try E (Default.value Value.none)).apply fn).call args
      = PyResult.raised (Exc.prim "TypeError" "cannot create 'NoneType' instances") 0 ∧
    ((safe_try E (Default.value Value.none)).apply fn).call args
      ≠ PyResult.ok Value.none := by
  have hres : ((safe_try E (Default.value Value.none)).apply fn).call args
      = PyResult.raised (Exc.prim "TypeError" "cannot create 'NoneType' instances") 0 := by
    rw [safe_try_call_raised E (Default.value Value.none) fn args e tb hf, if_pos hE]
    rfl
  exact ⟨hres, fun h => PyResult.noConfusion (hres.symm.trans h)⟩

/-- Witness for Claim C8 at concrete inputs. -/
theorem safe_try_omitted_default_raises_typeerror_witness :
    bad_function.call sample_args = PyResult.raised (Exc.prim "KeyError" "invalid_key") 7 ∧
    (Exc.prim "KeyError" "invalid_key").kind ∈ ["KeyError"] ∧
    ((safe_try ["KeyError"] (Default.value Value.none)).apply bad_function).call sample_args
      = PyResult.raised (Exc.prim "TypeError" "cannot create 'NoneType' instances") 0 :=
  ⟨rfl, by decide,
   (safe_try_omitted_default_raises_typeerror ["KeyError"] bad_function sample_args
      (Exc.prim "KeyError" "invalid_key") 7 rfl (by decide)).1⟩

/-- Claim C10: a callable default is always invoked with the original call's
arguments on the suppressed-error branch, and only non-callable defaults go
through the copy-by-reconstruction path. -/
theorem callable_default_always_invoked
    (E : List String) (g : Args → PyResult Value) (fn : Func) (args : Args)
    (e : Exc) (tb : Nat)
    (hf : fn.call args = PyResult.raised e tb) (hE : e.kind ∈ E) :
    ((safe_try E (Default.callable g)).apply fn).call args = g args ∧
    (∀ v : Value, _copy_or_call (Default.value v) args = reconstruct v) := by
  constructor
  · rw [safe_try_call_raised E (Default.callable g) fn args e tb hf, if_pos hE]
    rfl
  · intro v
    rfl

/-- Witness for Claim C10: the callable default receives the original
arguments and its result is returned. -/
theorem callable_default_always_invoked_witness :
    bad_function.call sample_args = PyResult.raised (Exc.prim "KeyError" "invalid_key") 7 ∧
    (Exc.prim "KeyError" "invalid_key").kind ∈ ["KeyError"] ∧
    ((safe_try ["KeyError"] (Default.callable default_callable)).apply bad_function).call
      sample_args = default_callable sample_args :=
  ⟨rfl, by decide,
   (callable_default_always_invoked ["KeyError"] default_callable bad_function sample_args
      (Exc.prim "KeyError" "invalid_key") 7 rfl (by decide)).1⟩

/-- A name accepted as a field name by `namedtuple`: only alphanumerics and
underscores, not a keyword, nonempty, not starting with a digit, and not
starting with an underscore. -/
def valid_field_name (s : String) : Bool :=
  s.data.all validChar && !(_iskeyword s) &&
  (match s.data with
   | [] => false
   | c :: _ => !c.isDigit && !(c == '_'))

/-- Unpacking `valid_field_name`. -/
theorem valid_field_name_parts (s : String) (h : valid_field_name s = true) :
    s.data.all validChar = true ∧ _iskeyword s = false ∧
    ∃ c cs, s.data = c :: cs ∧ c.isDigit = false ∧ (c == '_') = false := by
  rcases hd : s.data with _ | ⟨c, cs⟩
  · unfold valid_field_name at h
    rw [hd] at h
    simp at h
  · unfold valid_field_name at h
    rw [hd] at h
    simp only [Bool.and_eq_true, Bool.not_eq_true'] at h
    exact ⟨hd ▸ h.1.1, h.1.2, c, cs, rfl, h.2.1, h.2.2⟩

/-- A valid field name passes the first validation loop. -/
theorem checkName_of_valid (s : String) (h : valid_field_name s = true) :
    checkName s = Option.none := by
  obtain ⟨h1, h2, c, cs, hd, h3, h4⟩ := valid_field_name_parts s h
  unfold checkName
  rw [hd] at h1 ⊢
  simp [h1, h2, h3]

/-- On a nonempty name, the first validation loop only ever raises
`ValueError`. -/
theorem checkName_kind (s : String) (hne : s.data ≠ []) (e : Exc)
    (h : checkName s = some e) : e.kind = "ValueError" := by
  unfold checkName at h
  rcases hd : s.data with _ | ⟨c, cs⟩
  · exact absurd hd hne
  · rw [hd] at h
    dsimp only at h
    split at h
    · split at h
      · cases h
        rfl
      · split at h
        · cases h
          rfl
        · exact Option.noConfusion h
    · cases h
      rfl

/-- The first validation loop passes when every name passes. -/
theorem checkNames_eq_none (l : List String)
    (h : ∀ s ∈ l, checkName s = Option.none) : checkNames l = Option.none := by
  induction l with
  | nil => rfl
  | cons n rest ih =>
    unfold checkNames
    rw [h n (List.mem_cons_self n rest)]
    exact ih (fun s hs => h s (List.mem_cons_of_mem n hs))

/-- Over nonempty names, the first validation loop only raises `ValueError`. -/
theorem checkNames_kind (l : List String) (hne : ∀ s ∈ l, s.data ≠ []) (e : Exc)
    (h : checkNames l = some e) : e.kind = "ValueError" := by
  induction l with
  | nil => exact Option.noConfusion h
  | cons n rest ih =>
    unfold checkNames at h
    cases hn : checkName n with
    | some e1 =>
      rw [hn] at h
      cases h
      exact checkName_kind n (hne n (List.mem_cons_self n rest)) e hn
    | none =>
      rw [hn] at h
      exact ih (fun s hs => hne s (List.mem_cons_of_mem n hs)) h

/-- The second validation loop only raises `ValueError`. -/
theorem checkFields_kind (l : List String) : ∀ (seen : List String) (e : Exc),
    checkFields seen l = some e → e.kind = "ValueError" := by
  induction l with
  | nil =>
    intro seen e h
    exact Option.noConfusion h
  | cons n rest ih =>
    intro seen e h
    unfold checkFields at h
    split at h
    · cases h
      rfl
    · split at h
      · cases h
        rfl
      · exact ih (n :: seen) e h

/-- When the second validation loop passes, the field names are distinct and
none of them was already seen. -/
theorem checkFields_none_nodup (l : List String) : ∀ (seen : List String),
    checkFields seen l = Option.none →
    l.Nodup ∧ ∀ x ∈ l, seen.contains x = false := by
  induction l with
  | nil =>
    intro seen _
    exact ⟨List.nodup_nil, fun x hx => absurd hx (List.not_mem_nil x)⟩
  | cons n rest ih =>
    intro seen h
    unfold checkFields at h
    split at h
    · exact Option.noConfusion h
    · split at h
      · exact Option.noConfusion h
      · rename_i hu hc
        obtain ⟨hnd, hseen⟩ := ih (n :: seen) h
        have hc' : seen.contains n = false := Bool.not_eq_true _ ▸ eq_false_of_ne_true hc
        have hn : n ∉ rest := by
          intro hmem
          have := hseen n hmem
          simp [List.contains_cons] at this
        refine ⟨List.nodup_cons.mpr ⟨hn, hnd⟩, ?_⟩
        intro x hx
        rcases List.mem_cons.mp hx with rfl | hx'
        · exact hc'
        · have hthis := hseen x hx'
          simp [List.contains_cons] at hthis
          simpa using hthis.2

/-- The second validation loop passes on distinct names that do not start
with an underscore and were not seen before. -/
theorem checkFields_eq_none (l : List String) : ∀ (seen : List String),
    l.Nodup → (∀ s ∈ l, py_startswith_underscore s = false) →
    (∀ s ∈ l, seen.contains s = false) → checkFields seen l = Option.none := by
  induction l with
  | nil =>
    intro seen _ _ _
    rfl
  | cons n rest ih =>
    intro seen hnd hu hseen
    unfold checkFields
    rw [hu n (List.mem_cons_self n rest), hseen n (List.mem_cons_self n rest)]
    simp only [Bool.false_eq_true, if_false]
    have hn : n ∉ rest := (List.nodup_cons.mp hnd).1
    refine ih (n :: seen) (List.nodup_cons.mp hnd).2
      (fun s hs => hu s (List.mem_cons_of_mem n hs)) ?_
    intro s hs
    have h1 : (s == n) = false := beq_eq_false_iff_ne.mpr (fun hsn => hn (hsn ▸ hs))
    have h2 : seen.contains s = false := hseen s (List.mem_cons_of_mem n hs)
    simp
    exact ⟨fun hsn => hn (hsn ▸ hs), by simpa using h2⟩

/-- Looking a name up in the zip of a name list with its own image under `f`
yields the image of the name. -/
theorem lookup_zip_map (f : String → Value) (l : List String) (a : String)
    (ha : a ∈ l) : List.lookup a (l.zip (l.map f)) = some (f a) := by
  induction l with
  | nil => exact absurd ha (List.not_mem_nil a)
  | cons x rest ih =>
    by_cases hax : a = x
    · subst hax
      simp [List.lookup]
    · have ha' : a ∈ rest := by
        rcases List.mem_cons.mp ha with h | h
        · exact absurd h hax
        · exact h
      have hbeq : (a == x) = false := beq_eq_false_iff_ne.mpr hax
      simp [List.lookup, hbeq]
      exact ih ha'

/-- Joining names whose characters are all valid with `'_'` keeps every
character valid. -/
theorem pyJoin_data_all (l : List String)
    (h : ∀ s ∈ l, s.data.all validChar = true) :
    (pyJoin "_" l).data.all validChar = true := by
  induction l with
  | nil => rfl
  | cons x rest ih =>
    cases rest with
    | nil => exact h x (List.mem_cons_self x [])
    | cons y r =>
      show ((x ++ "_" ++ pyJoin "_" (y :: r))).data.all validChar = true
      rw [String.data_append, String.data_append, List.all_append, List.all_append]
      have hx := h x (List.mem_cons_self x (y :: r))
      have hrest := ih (fun s hs => h s (List.mem_cons_of_mem x hs))
      simp [hx, hrest]
      decide

/-- The join of a nonempty name list starts with the characters of its first
name. -/
theorem pyJoin_cons_data (x : String) (rest : List String) :
    ∃ t, (pyJoin "_" (x :: rest)).data = x.data ++ t := by
  cases rest with
  | nil => exact ⟨[], (List.append_nil x.data).symm⟩
  | cons y r =>
    refine ⟨"_".data ++ (pyJoin "_" (y :: r)).data, ?_⟩
    show ((x ++ "_") ++ pyJoin "_" (y :: r)).data = _
    rw [String.data_append, String.data_append, List.append_assoc]

/-- When every option is a valid field name, the generated type name
`'_'.join(options) + '_type'` passes the first validation loop. -/
theorem typename_checkName (options : List String)
    (hv : ∀ s ∈ options, valid_field_name s = true) :
    checkName (pyJoin "_" options ++ "_type") = Option.none := by
  have hall : (pyJoin "_" options ++ "_type").data.all validChar = true := by
    rw [String.data_append, List.all_append]
    have h1 : (pyJoin "_" options).data.all validChar = true :=
      pyJoin_data_all options (fun s hs => (valid_field_name_parts s (hv s hs)).1)
    rw [h1]
    decide
  have hkw : _iskeyword (pyJoin "_" options ++ "_type") = false := by
    have hmem : ('_' : Char) ∈ (pyJoin "_" options ++ "_type").data := by
      rw [String.data_append]
      exact List.mem_append_right _ (by decide)
    have hnk : ∀ k ∈ pykeywords, ('_' : Char) ∉ k.data := by decide
    cases hk : _iskeyword (pyJoin "_" options ++ "_type") with
    | false => rfl
    | true =>
      have hmem2 : (pyJoin "_" options ++ "_type") ∈ pykeywords := of_decide_eq_true hk
      exact absurd hmem (hnk _ hmem2)
  have hhead : ∃ c t, (pyJoin "_" options ++ "_type").data = c :: t ∧ c.isDigit = false := by
    cases options with
    | nil => exact ⟨'_', "type".data, by decide, by decide⟩
    | cons o rest =>
      obtain ⟨t, ht⟩ := pyJoin_cons_data o rest
      obtain ⟨_, _, c, cs, hd, h3, _⟩ :=
        valid_field_name_parts o (hv o (List.mem_cons_self o rest))
      refine ⟨c, cs ++ t ++ "_type".data, ?_, h3⟩
      rw [String.data_append, ht, hd]
      simp [List.append_assoc]
  obtain ⟨c, t, hd, hdig⟩ := hhead
  unfold checkName
  rw [hall, hkw, hd]
  simp [hdig]

/-- The record `create_enum options` is expected to return on acceptable
names: one field per option, holding its own name as a string. -/
def enum_record (options : List String) : Record where
  typename := pyJoin "_" options ++ "_type"
  fields := options
  values := options.map Value.str

/-- Claim C5, amended: for every ordered sequence of distinct name strings
that are acceptable field names (only alphanumerics and underscores, not a
keyword, nonempty, not starting with a digit or an underscore), `create_enum`
returns an immutable record whose fields are exactly the given names in input
order, and accessing each field yields that field's own name as a string. -/
theorem create_enum_fields_are_names (options : List String)
    (hv : options.all valid_field_name = true) (hnd : options.Nodup) :
    create_enum options = PyResult.ok (enum_record options) ∧
    ∀ a ∈ options, (enum_record options).getattr a = some (Value.str a) := by
  have hv' : ∀ s ∈ options, valid_field_name s = true := by
    intro s hs
    exact List.all_eq_true.mp hv s hs
  have h1 : checkNames ((pyJoin "_" options ++ "_type") :: options) = Option.none := by
    apply checkNames_eq_none
    intro s hs
    rcases List.mem_cons.mp hs with rfl | hs'
    · exact typename_checkName options hv'
    · exact checkName_of_valid s (hv' s hs')
  have h2 : checkFields [] options = Option.none := by
    apply checkFields_eq_none options [] hnd
    · intro s hs
      obtain ⟨_, _, c, cs, hd, _, h4⟩ := valid_field_name_parts s (hv' s hs)
      unfold py_startswith_underscore
      rw [hd]
      exact h4
    · intro s _
      rfl
  constructor
  · unfold create_enum namedtuple
    rw [h1, h2]
    simp [RecordType.make, enum_record]
  · intro a ha
    unfold enum_record Record.getattr
    exact lookup_zip_map Value.str options a ha

/-- Witness for Claim C5: `create_enum(["a","b"])` has fields exactly `a` and
`b`, in order, each holding its own name. -/
theorem create_enum_fields_are_names_witness :
    (["a", "b"] : List String).all valid_field_name = true ∧
    (["a", "b"] : List String).Nodup ∧
    create_enum ["a", "b"] = PyResult.ok (enum_record ["a", "b"]) ∧
    (enum_record ["a", "b"]).fields = ["a", "b"] ∧
    (enum_record ["a", "b"]).values = [Value.str "a", Value.str "b"] ∧
    (enum_record ["a", "b"]).getattr "a" = some (Value.str "a") ∧
    (enum_record ["a", "b"]).getattr "b" = some (Value.str "b") :=
  ⟨by decide, by decide,
   (create_enum_fields_are_names ["a", "b"] (by decide) (by decide)).1, rfl, rfl,
   (create_enum_fields_are_names ["a", "b"] (by decide) (by decide)).2 "a" (by decide),
   (create_enum_fields_are_names ["a", "b"] (by decide) (by decide)).2 "b" (by decide)⟩

/-- Counterexample to Claim C5 as stated: the distinct name list `["a b"]`
makes `create_enum` raise `ValueError` (the space is not allowed in a type or
field name) instead of returning a record. -/
theorem create_enum_invalid_name_counterexample :
    (["a b"] : List String).Nodup ∧
    raisesKind (create_enum ["a b"]) "ValueError" = true ∧
    (create_enum ["a b"]).isOk = false :=
  ⟨by decide, by decide, by decide⟩

/-- Claim C9, amended: on every sequence of nonempty names containing a
duplicate, `create_enum` raises `ValueError` rather than building a record. -/
theorem create_enum_duplicate_raises_valueerror (options : List String)
    (hne : options.all (fun s => !(s == "")) = true) (hdup : ¬ options.Nodup) :
    raisesKind (create_enum options) "ValueError" = true := by
  have hne' : ∀ s ∈ options, s.data ≠ [] := by
    intro s hs hdata
    have h1 := List.all_eq_true.mp hne s hs
    have h2 : s ≠ "" := by
      intro hse
      rw [hse] at h1
      simp at h1
    apply h2
    cases s
    simp_all
  cases h1 : checkNames ((pyJoin "_" options ++ "_type") :: options) with
  | some e =>
    have hk : e.kind = "ValueError" := by
      refine checkNames_kind _ ?_ e h1
      intro s hs
      rcases List.mem_cons.mp hs with rfl | hs'
      · rw [String.data_append]
        intro hemp
        exact absurd (List.append_eq_nil.mp hemp).2 (by decide)
      · exact hne' s hs'
    unfold create_enum namedtuple
    rw [h1]
    simp [raisesKind, hk]
  | none =>
    cases h2 : checkFields [] options with
    | none => exact absurd (checkFields_none_nodup options [] h2).1 hdup
    | some e =>
      have hk := checkFields_kind options [] e h2
      unfold create_enum namedtuple
      rw [h1, h2]
      simp [raisesKind, hk]

/-- Witness for Claim C9: the duplicate in `["a","a"]` makes `create_enum`
raise `ValueError`. -/
theorem create_enum_duplicate_raises_valueerror_witness :
    (["a", "a"] : List String).all (fun s => !(s == "")) = true ∧
    ¬ (["a", "a"] : List String).Nodup ∧
    raisesKind (create_enum ["a", "a"]) "ValueError" = true :=
  ⟨by decide, by decide,
   create_enum_duplicate_raises_valueerror ["a", "a"] (by decide) (by decide)⟩

/-- Counterexample to Claim C9 as stated: the duplicated empty name in
`["", ""]` makes `create_enum` raise `IndexError` (from `name[0]` on the empty
string in the first validation loop), not `ValueError`. -/
theorem create_enum_empty_duplicate_counterexample :
    ¬ (["", ""] : List String).Nodup ∧
    create_enum ["", ""]
      = PyResult.raised (Exc.prim "IndexError" "string index out of range") 0 ∧
    raisesKind (create_enum ["", ""]) "ValueError" = false :=
  ⟨by decide, rfl, by decide⟩
